import Mathlib

/-!
Verification of the JSON-RPC 2.0 actor of deno-json-rpc (src/rpc_two.ts).

The development shallowly embeds the actor: JavaScript values are an inductive
type, the actor's mutable record is an explicit state, the transport is a list
of decoded reads, and every operation of the source file becomes a pure Lean
function returning the successor state together with everything written to the
transport and every continuation resolution.  Line numbers in doc comments
refer to src/rpc_two.ts.
-/

namespace DenoJsonRpc

/-- Numbers as produced by JavaScript numeric coercion on protocol ids: an
integer or NaN.  The ids this implementation manipulates are integers assigned
by a counter, so fractional values never arise. -/
inductive JNum where
  | int (n : Int)
  | nan
deriving DecidableEq, Repr

/-- A message id as decoded from the wire: the type ID = string | number | null
of rpc_two.ts. -/
inductive IdVal where
  | str (s : String)
  | num (n : Int)
  | null
deriving DecidableEq, Repr

/-- JavaScript values, as far as the actor inspects them: params, results,
thrown faults and error data all live here. -/
inductive Value where
  | vUndefined
  | vNull
  | vBool (b : Bool)
  | vNum (j : JNum)
  | vStr (s : String)
  | vArr (l : List Value)
  | vObj (l : List (String × Value))

/-- JavaScript truthiness: undefined, null, false, 0, NaN and the empty string
are falsy, everything else (arrays and objects included) is truthy. -/
def truthy : Value → Bool
  | .vUndefined => false
  | .vNull => false
  | .vBool b => b
  | .vNum (.int n) => !(n == 0)
  | .vNum .nan => false
  | .vStr s => !(s == "")
  | .vArr _ => true
  | .vObj _ => true

/-- The JavaScript expression a || b: a when a is truthy, b otherwise.  Used by
sendResponse (line 757) as result || []. -/
def jsOr (a b : Value) : Value := if truthy a then a else b

/-- Digit run of a decimal literal: consume the characters, fail on the first
non-digit. -/
def decDigitsAux : List Char → Nat → Option Nat
  | [], acc => some acc
  | c :: cs, acc =>
    if c.isDigit then decDigitsAux cs (10 * acc + (c.toNat - 48)) else none

/-- Parse an optionally negated decimal integer literal; anything else fails. -/
def parseDecInt : List Char → Option Int
  | [] => none
  | '-' :: cs =>
    match cs with
    | [] => none
    | _ => (decDigitsAux cs 0).map (fun n => -(n : Int))
  | cs => (decDigitsAux cs 0).map (fun n => (n : Int))

/-- JavaScript Number() on a string, modelled on the id strings the protocol
uses: the empty string gives 0, a decimal integer literal gives its value, any
other string gives NaN. -/
def strToNumber (s : String) : JNum :=
  match s.data with
  | [] => .int 0
  | l =>
    match parseDecInt l with
    | some n => .int n
    | none => .nan

/-- JavaScript Number() on an id value (the coercion Number(msg.id) applied at
lines 598, 610, 613 and 627): a number maps to itself, null to 0, a string
through strToNumber. -/
def toNumber : IdVal → JNum
  | .str s => strToNumber s
  | .num n => .int n
  | .null => .int 0

/-- ErrorObject of rpc_two.ts: code, message and an optional data member; a
data of none means the object has no data field at all. -/
structure ErrorObject where
  code : Int
  message : String
  data : Option Value := none

/-- createError(code, message, data) (lines 667-677). -/
def createError (code : Int) (message : String) (data : Value) : ErrorObject :=
  { code := code, message := message, data := some data }

/-- createInternalError (lines 679-684): code -32603, message "Internal error",
no data member. -/
def createInternalError : ErrorObject :=
  { code := -32603, message := "Internal error" }

/-- createInvalidParamsError (lines 686-691). -/
def createInvalidParamsError : ErrorObject :=
  { code := -32602, message := "Invalid params" }

/-- createInvalidRequestError (lines 693-698). -/
def createInvalidRequestError : ErrorObject :=
  { code := -32600, message := "Invalid Request" }

/-- createMethodNotFoundError (lines 700-705). -/
def createMethodNotFoundError : ErrorObject :=
  { code := -32601, message := "Method not found" }

/-- createParseError (lines 707-712). -/
def createParseError : ErrorObject :=
  { code := -32700, message := "Parse error" }

/-- The id slot of an outbound Response: the number handed to sendResponse, or
the literal null used for uncorrelatable messages. -/
inductive OutId where
  | ofNum (j : JNum)
  | null
deriving DecidableEq, Repr

/-- An outbound ResponseObject as built by sendResponse: besides the constant
jsonrpc "2.0" member it carries the id and whichever of result/error was set;
a field of none is absent from the serialized object. -/
structure OutResponse where
  id : OutId
  result : Option Value := none
  error : Option ErrorObject := none

/-- sendResponse(id, result, error) (lines 744-761): when an error object is
supplied the response carries only that error; otherwise it carries
result || [] as its result, so a success always has a result member. -/
def sendResponse (id : OutId) (result : Value) (error : Option ErrorObject) :
    OutResponse :=
  match error with
  | some e => { id := id, error := some e }
  | none => { id := id, result := some (jsOr result (.vArr [])) }

/-- Outcome of running a registered listener: the value it returned, or the
value it threw. -/
inductive HandlerResult where
  | ok (v : Value)
  | thrown (e : Value)

/-- A ListenerFunction: the actor invokes it with msg.params. -/
def Handler : Type := Value → HandlerResult

/-- Lookup in a JS Map represented as an insertion-ordered association list
(Map.get, with Map.has being isSome of this). -/
def mget {α β : Type} [DecidableEq α] : List (α × β) → α → Option β
  | [], _ => none
  | (a, b) :: t, k => if a = k then some b else mget t k

/-- JS Map.set on the association-list representation: replace the binding if
the key exists, append otherwise. -/
def mset {α β : Type} [DecidableEq α] : List (α × β) → α → β → List (α × β)
  | [], k, v => [(k, v)]
  | (a, b) :: t, k, v => if a = k then (k, v) :: t else (a, b) :: mset t k v

/-- JS Map.delete on the association-list representation. -/
def mdel {α β : Type} [DecidableEq α] : List (α × β) → α → List (α × β)
  | [], _ => []
  | (a, b) :: t, k => if a = k then mdel t k else (a, b) :: mdel t k

/-- Pending-call lookup keyed by the coerced numeric id
(this._unresolvedRequests.get(Number(msg.id)), line 627).  The table only ever
holds the integer keys sendRequest assigned, so a NaN coercion finds nothing. -/
def jget (l : List (Int × Int)) : JNum → Option Int
  | .int n => mget l n
  | .nan => none

/-- Pending-call removal keyed by the coerced numeric id (line 633). -/
def jdel (l : List (Int × Int)) : JNum → List (Int × Int)
  | .int n => mdel l n
  | .nan => l

/-- The actor's mutable record (interface RPC): running flag, id counter,
the two handler registries and the pending-call table.  Each pending entry
maps the request id to a token identifying the stored resolve/reject pair. -/
structure RPCState where
  isRunning : Bool
  requestID : Int
  requestListeners : List (String × Handler)
  notificationListeners : List (String × Handler)
  unresolvedRequests : List (Int × Int)

/-- createRPC (lines 548-556): not running, counter at 0, empty registries and
empty pending-call table. -/
def createRPC : RPCState :=
  { isRunning := false
    requestID := 0
    requestListeners := []
    notificationListeners := []
    unresolvedRequests := [] }

/-- A decoded inbound JSON object with field presence explicit: none stands
for an absent member, matching the "id" in message / "method" in message
classification of lines 563-570. -/
structure RawMsg where
  id : Option IdVal := none
  method : Option String := none
  params : Option Value := none
  result : Option Value := none
  error : Option ErrorObject := none

/-- An inbound message classified as a Request (id and method both present). -/
structure InRequest where
  method : String
  params : Option Value
  id : IdVal

/-- An inbound message classified as a Notification (no id member); its method
member may itself be absent, in which case no listener can match. -/
structure InNotification where
  method : Option String
  params : Option Value

/-- An inbound message classified as a Response (id present, no method). -/
structure InResponse where
  id : IdVal
  result : Option Value
  error : Option ErrorObject

/-- A continuation resolution: the stored pending-call pair identified by its
token is fulfilled with a value or rejected with an ErrorObject. -/
inductive Event where
  | resolved (tok : Int) (v : Value)
  | rejected (tok : Int) (e : ErrorObject)

/-- Whether a handling step returns normally or lets a thrown value escape to
its caller. -/
inductive Outcome where
  | normal
  | threw (e : Value)

/-- Everything observable about one handling step: the successor state, the
responses written to the transport in order, the continuation resolutions, the
step's control-flow outcome, and whether a registered handler was invoked. -/
structure StepResult where
  state : RPCState
  writes : List OutResponse := []
  events : List Event := []
  outcome : Outcome := .normal
  handlerRan : Bool := false

/-- The function _handleNotification (lines 578-590): an unknown method is
ignored; a known listener runs on msg.params and a thrown fault is re-thrown
to the caller.  No write ever happens here. -/
def handleNotification (s : RPCState) (m : InNotification) : StepResult :=
  match m.method.bind (fun name => mget s.notificationListeners name) with
  | none => { state := s }
  | some f =>
    match f (m.params.getD .vUndefined) with
    | .ok _ => { state := s, handlerRan := true }
    | .thrown e => { state := s, outcome := .threw e, handlerRan := true }

/-- The function _handleRequest (lines 592-621): an unregistered method is
answered with Method not found; otherwise the listener runs on msg.params and
its return value is sent back, a thrown fault being answered with Internal
error and then re-thrown.  The echoed id is Number(msg.id) in every branch. -/
def handleRequest (s : RPCState) (m : InRequest) : StepResult :=
  match mget s.requestListeners m.method with
  | none =>
    { state := s
      writes :=
        [sendResponse (.ofNum (toNumber m.id)) .vUndefined
          (some createMethodNotFoundError)] }
  | some f =>
    match f (m.params.getD .vUndefined) with
    | .ok r =>
      { state := s
        writes := [sendResponse (.ofNum (toNumber m.id)) r none]
        handlerRan := true }
    | .thrown e =>
      { state := s
        writes :=
          [sendResponse (.ofNum (toNumber m.id)) .vUndefined
            (some createInternalError)]
        outcome := .threw e
        handlerRan := true }

/-- The function _handleResponse (lines 623-635): look the coerced numeric id
up in the pending-call table; on a hit, reject with msg.error when the error
member is present, otherwise resolve with msg.result, then delete the entry;
on a miss do nothing. -/
def handleResponse (s : RPCState) (m : InResponse) : RPCState × List Event :=
  match jget s.unresolvedRequests (toNumber m.id) with
  | none => (s, [])
  | some tok =>
    ({ s with unresolvedRequests := jdel s.unresolvedRequests (toNumber m.id) },
     [match m.error with
      | some e => .rejected tok e
      | none => .resolved tok (m.result.getD .vUndefined)])

/-- The function _handleMessage (lines 557-576).  The argument none stands for
a line JSON.parse rejects.  The try/catch spans the whole dispatch, so a fault
thrown out of _handleRequest or _handleNotification is also caught there and
answered with a parse-error Response of id null, exactly like a decode
failure. -/
def handleMessage (s : RPCState) (line : Option RawMsg) : StepResult :=
  match line with
  | none =>
    { state := s
      writes := [sendResponse .null .vUndefined (some createParseError)] }
  | some m =>
    match m.id with
    | some i =>
      match m.method with
      | some name =>
        let r := handleRequest s { method := name, params := m.params, id := i }
        match r.outcome with
        | .normal => r
        | .threw _ =>
          { r with
              writes :=
                r.writes ++ [sendResponse .null .vUndefined (some createParseError)]
              outcome := .normal }
      | none =>
        let p := handleResponse s { id := i, result := m.result, error := m.error }
        { state := p.1, events := p.2 }
    | none =>
      let r := handleNotification s { method := m.method, params := m.params }
      match r.outcome with
      | .normal => r
      | .threw _ =>
        { r with
            writes :=
              r.writes ++ [sendResponse .null .vUndefined (some createParseError)]
            outcome := .normal }

/-- An outbound RequestObject as built by sendRequest: jsonrpc "2.0", the
freshly assigned integer id, method and params. -/
structure OutRequest where
  method : String
  params : Option Value
  id : Int

/-- The observable actions of sendRequest, in program order: recording the
pending-call entry and handing the serialized request to the transport. -/
inductive SendAction where
  | register (key : Int) (tok : Int)
  | write (r : OutRequest)

/-- The function sendRequest (lines 726-742): step the counter, build the
Request under the new id, then - synchronously inside the promise executor -
record the pending entry and only afterwards hand the request to the
transport.  The stored resolve/reject pair is identified by a token, here the
id itself. -/
def sendRequest (s : RPCState) (method : String) (params : Option Value) :
    RPCState × OutRequest × List SendAction :=
  let newId := s.requestID + 1
  let req : OutRequest := { method := method, params := params, id := newId }
  ({ s with
      requestID := newId
      unresolvedRequests := mset s.unresolvedRequests newId newId },
   req,
   [.register newId newId, .write req])

/-- An outbound Notification as built by sendNotification (lines 714-724). -/
structure OutNotification where
  method : String
  params : Option Value

/-- The function sendNotification (lines 714-724): build and write the
notification; no correlation bookkeeping, no state change. -/
def sendNotification (method : String) (params : Option Value) : OutNotification :=
  { method := method, params := params }

/-- The synchronous effect of start (line 764): set the running flag.  The
loop it then enters is runLoop below. -/
def startActor (s : RPCState) : RPCState := { s with isRunning := true }

/-- The function stop (lines 772-774): clear the running flag. -/
def stopActor (s : RPCState) : RPCState := { s with isRunning := false }

/-- The read loop of start (lines 765-769): while the running flag is set,
read the next decoded line and dispatch it through _handleMessage; the list
argument is the stream of reads.  Returns the final state and every response
written. -/
def runLoop : RPCState → List (Option RawMsg) → RPCState × List OutResponse
  | s, [] => (s, [])
  | s, l :: ls =>
    if s.isRunning then
      let r := handleMessage s l
      let p := runLoop r.state ls
      (p.1, r.writes ++ p.2)
    else (s, [])

/-- The ids allocated by n successive sendRequest calls starting from state s
(method and params do not influence allocation). -/
def allocatedIds (s : RPCState) : Nat → List Int
  | 0 => []
  | n + 1 =>
    let p := sendRequest s "m" none
    p.2.1.id :: allocatedIds p.1 n

/-- The arithmetic sequence k, k+1, ..., k+n-1, the intended shape of id
allocation. -/
def idsFrom (k : Int) : Nat → List Int
  | 0 => []
  | n + 1 => k :: idsFrom (k + 1) n

/-! Helper lemmas about the association-list maps and id allocation. -/

theorem mget_mdel_self {α β : Type} [DecidableEq α] (l : List (α × β)) (k : α) :
    mget (mdel l k) k = none := by
  induction l with
  | nil => rfl
  | cons hd tl ih =>
    obtain ⟨a, b⟩ := hd
    by_cases hak : a = k
    · simpa [mdel, hak] using ih
    · simpa [mdel, mget, hak] using ih

theorem jget_jdel_self (l : List (Int × Int)) (j : JNum) :
    jget (jdel l j) j = none := by
  cases j with
  | int n => exact mget_mdel_self l n
  | nan => rfl

theorem allocatedIds_eq_idsFrom (n : Nat) :
    ∀ s : RPCState, allocatedIds s n = idsFrom (s.requestID + 1) n := by
  induction n with
  | zero => intro s; rfl
  | succ n ih =>
    intro s
    show (s.requestID + 1) :: allocatedIds _ n = _
    rw [ih]
    rfl

theorem idsFrom_mem_lt (n : Nat) :
    ∀ k x : Int, x ∈ idsFrom k n → k ≤ x := by
  induction n with
  | zero => intro k x hx; cases hx
  | succ n ih =>
    intro k x hx
    rcases List.mem_cons.mp hx with h | h
    · omega
    · have := ih (k + 1) x h; omega

theorem idsFrom_pairwise_lt (n : Nat) :
    ∀ k : Int, (idsFrom k n).Pairwise (· < ·) := by
  induction n with
  | zero => intro k; exact List.Pairwise.nil
  | succ n ih =>
    intro k
    refine List.Pairwise.cons ?_ (ih (k + 1))
    intro x hx
    have := idsFrom_mem_lt n (k + 1) x hx
    omega

/-! Theorems for the claims. -/

/-- Claim C5: a line that fails structured decoding is answered with a
Response of id null carrying the Parse error object, whose code is -32700,
and no handling path ever lets a fault escape to the run loop. -/
theorem parse_failure_yields_parse_error_response :
    (∀ s : RPCState,
      handleMessage s none =
        { state := s, writes := [{ id := .null, error := some createParseError }] }) ∧
    createParseError.code = -32700 ∧
    (∀ (s : RPCState) (line : Option RawMsg),
      (handleMessage s line).outcome = .normal) := by
  refine ⟨fun s => rfl, rfl, ?_⟩
  intro s line
  cases line with
  | none => rfl
  | some m =>
    obtain ⟨mid, mmeth, mparams, mres, merr⟩ := m
    cases mid with
    | some i =>
      cases mmeth with
      | some name =>
        dsimp only [handleMessage]
        cases h : (handleRequest s { method := name, params := mparams, id := i }).outcome with
        | normal => simp [h]
        | threw e => simp [h]
      | none => rfl
    | none =>
      dsimp only [handleMessage]
      cases h : (handleNotification s { method := mmeth, params := mparams }).outcome with
      | normal => simp [h]
      | threw e => simp [h]

/-- Claim C1 is violated by the code: when a registered notification handler
throws, the fault re-thrown by the function _handleNotification is caught by
the try/catch of the function _handleMessage (which spans the whole dispatch,
not only JSON.parse), and a parse-error Response with id null is written to
the transport, although no Response may ever be sent for a Notification. -/
theorem notification_handler_throw_writes_response :
    (handleMessage
      { createRPC with
          notificationListeners := [("boom", fun _ => .thrown (.vStr "kaboom"))] }
      (some { method := some "boom" })).writes =
      [{ id := .null, error := some createParseError }] := rfl

/-- Claim C2: a Request whose registered handler returns successfully is
answered with exactly one Response, carrying the Request's id and a result
member and no error member. -/
theorem request_success_single_response (s : RPCState) (m : RawMsg) (n : Int)
    (name : String) (f : Handler) (r : Value)
    (hid : m.id = some (.num n)) (hm : m.method = some name)
    (hf : mget s.requestListeners name = some f)
    (hr : f (m.params.getD .vUndefined) = .ok r) :
    ∃ resp : OutResponse,
      (handleMessage s (some m)).writes = [resp] ∧
      resp.id = .ofNum (.int n) ∧
      resp.result.isSome = true ∧
      resp.error = none := by
  refine ⟨sendResponse (.ofNum (.int n)) r none, ?_, rfl, rfl, rfl⟩
  simp only [handleMessage, hid, hm, handleRequest, hf, hr, toNumber]

/-- Witness for Claim C2: one registered handler returning the string "ok"
answers the Request of id 1 with exactly one error-free Response of id 1. -/
theorem request_success_single_response_witness :
    ∃ resp : OutResponse,
      (handleMessage
        { createRPC with
            requestListeners := [("test", fun _ => .ok (.vStr "ok"))] }
        (some
          { id := some (.num 1), method := some "test",
            params := some (.vStr "ok") })).writes = [resp] ∧
      resp.id = .ofNum (.int 1) ∧
      resp.result.isSome = true ∧
      resp.error = none :=
  request_success_single_response _ _ 1 "test" (fun _ => .ok (.vStr "ok"))
    (.vStr "ok") rfl rfl rfl rfl

/-- Claim C4: a Request whose registered handler throws is answered with a
Response carrying the request's id and the Internal error object - code
-32603, message "Internal error", no data member - while the original fault
is re-raised internally, not serialized to the peer. -/
theorem handler_failure_internal_error (s : RPCState) (m : InRequest) (n : Int)
    (f : Handler) (e : Value)
    (hid : m.id = .num n)
    (hf : mget s.requestListeners m.method = some f)
    (he : f (m.params.getD .vUndefined) = .thrown e) :
    (handleRequest s m).writes =
      [{ id := .ofNum (.int n), error := some createInternalError }] ∧
    createInternalError.code = -32603 ∧
    createInternalError.message = "Internal error" ∧
    createInternalError.data = none ∧
    (handleRequest s m).outcome = .threw e := by
  refine ⟨?_, rfl, rfl, rfl, ?_⟩
  · simp only [handleRequest, hf, he, hid, toNumber, sendResponse]
  · simp only [handleRequest, hf, he]

/-- Witness for Claim C4: a handler that throws the string "bad" makes the
actor answer request id 3 with the Internal error Response. -/
theorem handler_failure_internal_error_witness :
    (handleRequest
      { createRPC with
          requestListeners := [("test", fun _ => .thrown (.vStr "bad"))] }
      { method := "test", params := none, id := .num 3 }).writes =
      [{ id := .ofNum (.int 3), error := some createInternalError }] ∧
    createInternalError.code = -32603 ∧
    createInternalError.message = "Internal error" ∧
    createInternalError.data = none ∧
    (handleRequest
      { createRPC with
          requestListeners := [("test", fun _ => .thrown (.vStr "bad"))] }
      { method := "test", params := none, id := .num 3 }).outcome =
      .threw (.vStr "bad") :=
  handler_failure_internal_error _ _ 3 (fun _ => .thrown (.vStr "bad"))
    (.vStr "bad") rfl rfl rfl

/-- Claim C6: a Request for a method with no registered handler is answered
with a Response whose id is the request id coerced through Number() and whose
error is the Method not found object of code -32601, and no handler runs. -/
theorem unknown_method_answered_not_found (s : RPCState) (m : InRequest)
    (h : mget s.requestListeners m.method = none) :
    handleRequest s m =
      { state := s
        writes :=
          [{ id := .ofNum (toNumber m.id),
             error := some createMethodNotFoundError }] } ∧
    (handleRequest s m).handlerRan = false ∧
    createMethodNotFoundError.code = -32601 := by
  refine ⟨?_, ?_, rfl⟩
  · simp only [handleRequest, h, sendResponse]
  · simp only [handleRequest, h]

/-- Witness for Claim C6: an actor with an empty registry answers a Request
whose id arrived as the text "7" with a Method not found Response under the
numerically coerced id 7. -/
theorem unknown_method_answered_not_found_witness :
    (handleRequest createRPC { method := "nope", params := none, id := .str "7" } =
      { state := createRPC
        writes :=
          [{ id := .ofNum (toNumber (.str "7")),
             error := some createMethodNotFoundError }] } ∧
    (handleRequest createRPC
      { method := "nope", params := none, id := .str "7" }).handlerRan = false ∧
    createMethodNotFoundError.code = -32601) ∧
    toNumber (.str "7") = .int 7 :=
  ⟨unknown_method_answered_not_found createRPC
      { method := "nope", params := none, id := .str "7" } rfl,
   by decide⟩

/-- Claim C3 as stated, localized to one actor state and one request: every
Response written for a successfully handled Request carries the handler's
return value as its result, except that a handler returning no value (the
undefined value) defaults to the empty array. -/
def c3ClaimAt (s : RPCState) (m : InRequest) : Prop :=
  ∀ (f : Handler) (r : Value),
    mget s.requestListeners m.method = some f →
    f (m.params.getD .vUndefined) = .ok r →
    ∀ resp ∈ (handleRequest s m).writes, resp.result = some r ∨ r = .vUndefined

/-- Counterexample to Claim C3: a handler returning the value false - a
perfectly usable value, not an absent one - is answered with result [], not
with false, because sendResponse computes result || [] and false is falsy. -/
theorem result_not_handler_value_counterexample :
    ¬ c3ClaimAt
      { createRPC with requestListeners := [("test", fun _ => .ok (.vBool false))] }
      { method := "test", params := none, id := .num 1 } := by
  intro h
  have h2 := h (fun _ => .ok (.vBool false)) (.vBool false) rfl rfl
  have h3 := h2 { id := .ofNum (.int 1), result := some (.vArr []) }
    (by simp [handleRequest, mget, sendResponse, jsOr, truthy, toNumber])
  rcases h3 with h3 | h3 <;> simp at h3

/-- Claim C3 amended: the Response's result is jsOr of the handler's return
value and the empty array, that is, the return value itself whenever it is
truthy, and the empty-array default for every falsy return value (undefined,
null, false, 0, NaN or the empty string), not only for an absent one. -/
theorem result_from_handler_with_falsy_default (s : RPCState) (m : InRequest)
    (f : Handler) (r : Value)
    (hf : mget s.requestListeners m.method = some f)
    (hr : f (m.params.getD .vUndefined) = .ok r) :
    (handleRequest s m).writes =
      [{ id := .ofNum (toNumber m.id), result := some (jsOr r (.vArr [])) }] ∧
    (truthy r = true → jsOr r (.vArr []) = r) ∧
    (truthy r = false → jsOr r (.vArr []) = .vArr []) := by
  refine ⟨?_, fun ht => ?_, fun ht => ?_⟩
  · simp only [handleRequest, hf, hr, sendResponse]
  · simp [jsOr, ht]
  · simp [jsOr, ht]

/-- Witness for the amended Claim C3: the handler returning false is answered
with the defaulted result []. -/
theorem result_from_handler_with_falsy_default_witness :
    (handleRequest
      { createRPC with requestListeners := [("test", fun _ => .ok (.vBool false))] }
      { method := "test", params := none, id := .num 1 }).writes =
      [{ id := .ofNum (toNumber (.num 1)),
         result := some (jsOr (.vBool false) (.vArr [])) }] ∧
    (truthy (.vBool false) = true → jsOr (.vBool false) (.vArr []) = .vBool false) ∧
    (truthy (.vBool false) = false → jsOr (.vBool false) (.vArr []) = .vArr []) :=
  result_from_handler_with_falsy_default _ _ (fun _ => .ok (.vBool false))
    (.vBool false) rfl rfl

/-- Claim C7: successive sendRequest calls allocate the ids 1, 2, 3, ...: from
a fresh actor the ids of n calls are exactly the sequence starting at 1, and
from any reachable state the allocated ids are pairwise strictly increasing
and never repeat. -/
theorem sendRequest_ids_strictly_increasing :
    (∀ n : Nat, allocatedIds createRPC n = idsFrom 1 n) ∧
    (∀ (s : RPCState) (n : Nat), (allocatedIds s n).Pairwise (· < ·)) ∧
    (∀ (s : RPCState) (n : Nat), (allocatedIds s n).Nodup) := by
  have key : ∀ (s : RPCState) (n : Nat), (allocatedIds s n).Pairwise (· < ·) := by
    intro s n
    rw [allocatedIds_eq_idsFrom]
    exact idsFrom_pairwise_lt n _
  refine ⟨fun n => ?_, key, fun s n => ?_⟩
  · rw [allocatedIds_eq_idsFrom]
    norm_num [createRPC]
  · exact (key s n).imp (fun h => ne_of_lt h)

/-- Claim C8: sendRequest records the pending entry before the transport
write; a correlated Response consumes its entry exactly once - rejected with
the error object when the error member is present, resolved with the result
otherwise - and the entry is removed in the same step, after which a replay of
the same Response, like any Response with an unknown id, is discarded with no
state change, no event and no fault. -/
theorem pending_call_consumed_exactly_once :
    (∀ (s : RPCState) (name : String) (p : Option Value),
      (sendRequest s name p).2.2 =
        [.register (s.requestID + 1) (s.requestID + 1),
         .write (sendRequest s name p).2.1]) ∧
    (∀ (s : RPCState) (m : InResponse) (tok : Int) (e : ErrorObject),
      jget s.unresolvedRequests (toNumber m.id) = some tok →
      m.error = some e →
      handleResponse s m =
        ({ s with unresolvedRequests := jdel s.unresolvedRequests (toNumber m.id) },
         [.rejected tok e])) ∧
    (∀ (s : RPCState) (m : InResponse) (tok : Int),
      jget s.unresolvedRequests (toNumber m.id) = some tok →
      m.error = none →
      handleResponse s m =
        ({ s with unresolvedRequests := jdel s.unresolvedRequests (toNumber m.id) },
         [.resolved tok (m.result.getD .vUndefined)])) ∧
    (∀ (s : RPCState) (m : InResponse) (tok : Int),
      jget s.unresolvedRequests (toNumber m.id) = some tok →
      jget (handleResponse s m).1.unresolvedRequests (toNumber m.id) = none ∧
      handleResponse (handleResponse s m).1 m = ((handleResponse s m).1, [])) ∧
    (∀ (s : RPCState) (m : InResponse),
      jget s.unresolvedRequests (toNumber m.id) = none →
      handleResponse s m = (s, [])) := by
  refine ⟨fun s name p => rfl, ?_, ?_, ?_, ?_⟩
  · intro s m tok e hg he
    simp only [handleResponse, hg, he]
  · intro s m tok hg he
    simp only [handleResponse, hg, he]
  · intro s m tok hg
    have h1 : (handleResponse s m).1.unresolvedRequests =
        jdel s.unresolvedRequests (toNumber m.id) := by
      simp only [handleResponse, hg]
    have hnone : jget (handleResponse s m).1.unresolvedRequests (toNumber m.id) = none := by
      rw [h1]
      exact jget_jdel_self _ _
    refine ⟨hnone, ?_⟩
    generalize hS : (handleResponse s m).1 = s2 at hnone ⊢
    simp only [handleResponse, hnone]
  · intro s m hg
    simp only [handleResponse, hg]

/-- An actor state with one live pending call under id 1 (token 1), used to
exercise Response correlation concretely. -/
def pendingExampleState : RPCState :=
  { createRPC with unresolvedRequests := [(1, 1)] }

/-- A Response to id 1 carrying an error member. -/
def errorReply : InResponse :=
  { id := .num 1, result := none, error := some createParseError }

/-- A Response to id 1 carrying a result and no error member. -/
def okReply : InResponse :=
  { id := .num 1, result := some (.vStr "ok"), error := none }

/-- Witness for Claim C8: on the one-entry table, the error Response rejects
token 1 and empties the table, the error-free Response resolves token 1, the
replay of the consumed Response is discarded, and a Response to a fresh actor
with no pending calls changes nothing. -/
theorem pending_call_consumed_exactly_once_witness :
    handleResponse pendingExampleState errorReply =
      ({ pendingExampleState with
          unresolvedRequests :=
            jdel pendingExampleState.unresolvedRequests (toNumber errorReply.id) },
       [.rejected 1 createParseError]) ∧
    handleResponse pendingExampleState okReply =
      ({ pendingExampleState with
          unresolvedRequests :=
            jdel pendingExampleState.unresolvedRequests (toNumber okReply.id) },
       [.resolved 1 (okReply.result.getD .vUndefined)]) ∧
    jget (handleResponse pendingExampleState errorReply).1.unresolvedRequests
      (toNumber errorReply.id) = none ∧
    handleResponse (handleResponse pendingExampleState errorReply).1 errorReply =
      ((handleResponse pendingExampleState errorReply).1, []) ∧
    handleResponse createRPC errorReply = (createRPC, []) :=
  ⟨pending_call_consumed_exactly_once.2.1 pendingExampleState errorReply 1
      createParseError rfl rfl,
   pending_call_consumed_exactly_once.2.2.1 pendingExampleState okReply 1 rfl rfl,
   (pending_call_consumed_exactly_once.2.2.2.1 pendingExampleState errorReply 1 rfl).1,
   (pending_call_consumed_exactly_once.2.2.2.1 pendingExampleState errorReply 1 rfl).2,
   pending_call_consumed_exactly_once.2.2.2.2 createRPC errorReply rfl⟩

/-- Claim C9: start on a running actor and stop on a stopped actor change
nothing: the state is left fixed, a repeated start drives the read loop
exactly as a single one, repeated starts and stops collapse, and both
operations are total, so no fault is raised. -/
theorem start_stop_are_noops :
    (∀ s : RPCState, s.isRunning = true → startActor s = s) ∧
    (∀ s : RPCState, s.isRunning = false → stopActor s = s) ∧
    (∀ (s : RPCState) (ls : List (Option RawMsg)),
      runLoop (startActor (startActor s)) ls = runLoop (startActor s) ls) ∧
    (∀ s : RPCState, startActor (startActor s) = startActor s) ∧
    (∀ s : RPCState, stopActor (stopActor s) = stopActor s) := by
  refine ⟨?_, ?_, fun s ls => rfl, fun s => rfl, fun s => rfl⟩
  · intro s h
    cases s
    simp_all [startActor]
  · intro s h
    cases s
    simp_all [stopActor]

/-- Witness for Claim C9: starting the already started fresh actor leaves it
unchanged, and stopping the fresh (stopped) actor leaves it unchanged. -/
theorem start_stop_are_noops_witness :
    startActor (startActor createRPC) = startActor createRPC ∧
    stopActor createRPC = createRPC :=
  ⟨start_stop_are_noops.1 (startActor createRPC) rfl,
   start_stop_are_noops.2.1 createRPC rfl⟩

/-- Claim C10: inbound Response correlation coerces the received id through
Number() before the pending-call lookup, so a Response whose id is the decimal
string spelling n is handled exactly like one whose id is the number n, and it
resolves the pending call registered under the integer n. -/
theorem response_id_string_coerced (st : RPCState) (s : String) (n : Int)
    (res : Option Value) (err : Option ErrorObject)
    (h : strToNumber s = .int n) :
    handleResponse st { id := .str s, result := res, error := err } =
      handleResponse st { id := .num n, result := res, error := err } ∧
    (∀ tok : Int,
      mget st.unresolvedRequests n = some tok →
      (handleResponse st { id := .str s, result := res, error := err
        }).1.unresolvedRequests = mdel st.unresolvedRequests n ∧
      (handleResponse st { id := .str s, result := res, error := err }).2 =
        [match err with
         | some e => .rejected tok e
         | none => .resolved tok (res.getD .vUndefined)]) := by
  have hid : toNumber (.str s) = JNum.int n := by
    simp [toNumber, h]
  constructor
  · simp only [handleResponse, toNumber, hid, h]
  · intro tok htok
    have hg : jget st.unresolvedRequests (toNumber (.str s)) = some tok := by
      simp [toNumber, h, jget, htok]
    constructor
    · simp only [handleResponse, hid, jget, htok, jdel]
    · simp only [handleResponse, hg]

/-- Witness for Claim C10: on a table holding id 5 with token 9, a Response
with id "5" resolves it exactly like a Response with id 5. -/
theorem response_id_string_coerced_witness :
    handleResponse { createRPC with unresolvedRequests := [(5, 9)] }
      { id := .str "5", result := some (.vStr "ok"), error := none } =
      handleResponse { createRPC with unresolvedRequests := [(5, 9)] }
        { id := .num 5, result := some (.vStr "ok"), error := none } ∧
    (handleResponse { createRPC with unresolvedRequests := [(5, 9)] }
      { id := .str "5", result := some (.vStr "ok"), error := none
      }).1.unresolvedRequests = mdel [(5, 9)] 5 ∧
    (handleResponse { createRPC with unresolvedRequests := [(5, 9)] }
      { id := .str "5", result := some (.vStr "ok"), error := none }).2 =
      [.resolved 9 (.vStr "ok")] := by
  have t := response_id_string_coerced
    { createRPC with unresolvedRequests := [(5, 9)] } "5" 5
    (some (.vStr "ok")) none (by decide)
  exact ⟨t.1, (t.2 9 rfl).1, (t.2 9 rfl).2⟩

end DenoJsonRpc
